import Mathlib

/-!
Verification development for the consent reconciliation engine of the
Data-Consent-Phox repository.  The JavaScript webhook handlers, the bulk
sync script, the Klaviyo synchronizer and the consent-matrix lookup are
shallowly embedded as pure Lean functions; database rows become explicit
records, timestamps become integers (milliseconds), and the external
GraphQL / HTTP calls become oracle parameters whose observable requests
are collected in the results.
-/

/-- The closed tri-state consent enum used throughout the app. -/
inductive TriState where
  | SUBSCRIBED
  | UNSUBSCRIBED
  | NOT_SUBSCRIBED
deriving DecidableEq, Repr

/-- JavaScript truthiness for nullable strings: `null`/`undefined` and the
empty string are falsy, every other string is truthy. -/
def truthy : Option String → Bool
  | none => false
  | some s => s ≠ ""

/-- ASCII `toLowerCase` as a structurally recursive character map (the
strings the handlers compare are ASCII tokens). -/
def jsToLower (s : String) : String :=
  String.mk (s.data.map Char.toLower)

/-- ASCII `toUpperCase` as a structurally recursive character map. -/
def jsToUpper (s : String) : String :=
  String.mk (s.data.map Char.toUpper)

/-- `trim`: strip leading and trailing whitespace. -/
def jsTrim (s : String) : String :=
  String.mk (((s.data.dropWhile Char.isWhitespace).reverse.dropWhile Char.isWhitespace).reverse)

/-- Split a character list on a separator character. -/
def splitChars (sep : Char) : List Char → List (List Char)
  | [] => [[]]
  | c :: rest =>
    let r := splitChars sep rest
    if c = sep then [] :: r
    else
      match r with
      | h :: t => (c :: h) :: t
      | [] => [[c]]

/-- Whether `pre` is a prefix of the second list. -/
def prefixChars : List Char → List Char → Bool
  | [], _ => true
  | _ :: _, [] => false
  | a :: as, b :: bs => a == b && prefixChars as bs

/-- Whether the needle occurs as a contiguous sublist of the haystack
(`String.prototype.includes`). -/
def hasSubChars (needle : List Char) : List Char → Bool
  | [] => prefixChars needle []
  | c :: rest => prefixChars needle (c :: rest) || hasSubChars needle rest

/-- From `webhooks.app.customers_email_marketing_consent_update.jsx`:
`toState` maps the raw Shopify consent state (possibly absent) to the enum,
lower-casing first and defaulting to `NOT_SUBSCRIBED`. -/
def toState (raw : Option String) : TriState :=
  let s := jsToLower (raw.getD "")
  if s = "subscribed" then TriState.SUBSCRIBED
  else if s = "unsubscribed" then TriState.UNSUBSCRIBED
  else if s = "not_subscribed" then TriState.NOT_SUBSCRIBED
  else TriState.NOT_SUBSCRIBED

/-- From the bulk sync script (`src/unnamed/part_005`): `mapState` maps
Shopify's `emailMarketingConsent.marketingState` to the enum by strict
comparison, with `null`/unknown falling back to `NOT_SUBSCRIBED`. -/
def mapState (s : Option String) : TriState :=
  if s = some "SUBSCRIBED" then TriState.SUBSCRIBED
  else if s = some "UNSUBSCRIBED" then TriState.UNSUBSCRIBED
  else if s = some "NOT_SUBSCRIBED" then TriState.NOT_SUBSCRIBED
  else TriState.NOT_SUBSCRIBED

/-- From `webhooks.app.orders_create.jsx`: map the decided subscribe boolean
(`undefined` when unknown) to the tri-state enum. -/
def toStateFromSubscribe : Option Bool → TriState
  | some true => TriState.SUBSCRIBED
  | some false => TriState.UNSUBSCRIBED
  | none => TriState.NOT_SUBSCRIBED

/-- A row of the `Customer` table (the fields the handlers read or write).
Timestamps are integer epoch milliseconds; `none` models SQL `NULL`. -/
structure Customer where
  email : Option String := none
  shopifyCustomerId : Option String := none
  firstName : Option String := none
  lastName : Option String := none
  lastState : Option TriState := none
  lastConsentAt : Option Int := none
  lastMode : Option String := none
  lastCountry : Option String := none
  suppressConsentWebhookUntil : Option Int := none
  suppressConsentState : Option TriState := none
deriving DecidableEq, Repr

/-- An appended `ConsentEvent` row (type tag and resolved tri-state). -/
structure ConsentEvent where
  type : String
  state : Option TriState := none
deriving DecidableEq, Repr

/-- The observable arguments of a `syncKlaviyoForCustomer` invocation. -/
structure KlaviyoCall where
  email : String
  subscribed : Bool
deriving DecidableEq, Repr

/-- Payload slice of the `customers_email_marketing_consent_update` webhook. -/
structure ConsentWebhookPayload where
  customer_id : Option String := none
  email_address : Option String := none
  consent_state : Option String := none
  consent_updated_at : Option Int := none
deriving DecidableEq, Repr

/-- Email normalisation of the consent webhook:
`payload?.email_address ? String(...).toLowerCase().trim() : null`. -/
def normEmail (e : Option String) : Option String :=
  if truthy e then some (jsTrim (jsToLower (e.getD ""))) else none

/-- The suppression-fence test of the consent webhook handler: both fence
fields present, the arrival time within the window, and the observed state
equal to the expected one. -/
def fenceBlocks (c : Customer) (state : TriState) (now : Int) : Bool :=
  match c.suppressConsentWebhookUntil, c.suppressConsentState with
  | some u, some s => decide (now ≤ u ∧ state = s)
  | _, _ => false

/-- Result of the consent webhook handler: the written customer row, whether
it was created, the appended audit events, and the synchronizer calls. -/
structure ConsentWebhookResult where
  customer : Customer
  created : Bool
  events : List ConsentEvent
  klaviyoCalls : List KlaviyoCall
deriving DecidableEq, Repr

/-- The upsert-and-sync tail of the consent webhook handler (runs when the
fence did not suppress the signal). -/
def consentWebhookApply (existing : Option Customer) (email shopifyId : Option String)
    (state : TriState) (consentAt : Int) : ConsentWebhookResult :=
  let cust : Customer :=
    match existing with
    | some c =>
      { c with
        email := if truthy email then email else c.email
        shopifyCustomerId := if truthy shopifyId then shopifyId else c.shopifyCustomerId
        lastState := some state
        lastConsentAt := some consentAt
        suppressConsentWebhookUntil := none
        suppressConsentState := none }
    | none =>
      { email := email
        shopifyCustomerId := shopifyId
        lastState := some state
        lastConsentAt := some consentAt }
  { customer := cust
    created := existing.isNone
    events := [{ type := "shopify_subscription_update", state := some state }]
    klaviyoCalls :=
      if truthy email then
        [{ email := email.getD "", subscribed := decide (state = TriState.SUBSCRIBED) }]
      else [] }

/-- The `action` of `webhooks.app.customers_email_marketing_consent_update.jsx`,
as a function of the looked-up existing row, the payload and the arrival
time.  The fence check runs first; a suppressed echo only clears the fence. -/
def consentWebhookAction (existing : Option Customer) (p : ConsentWebhookPayload)
    (now : Int) : ConsentWebhookResult :=
  let email := normEmail p.email_address
  let state := toState p.consent_state
  let consentAt := p.consent_updated_at.getD now
  match existing with
  | some c =>
    if fenceBlocks c state now then
      { customer := { c with suppressConsentWebhookUntil := none, suppressConsentState := none }
        created := false
        events := []
        klaviyoCalls := [] }
    else consentWebhookApply (some c) email p.customer_id state consentAt
  | none => consentWebhookApply none email p.customer_id state consentAt

/-- Slice of a Shopify customer node returned by the bulk-sync GraphQL query
(`src/unnamed/part_005`). -/
structure ShopifyCustomerNode where
  id : Option String := none
  email : Option String := none
  firstName : Option String := none
  lastName : Option String := none
  updatedAt : Option Int := none
  marketingState : Option String := none
  consentUpdatedAt : Option Int := none
  countryCodeV2 : Option String := none
deriving DecidableEq, Repr

/-- `gidToNumeric` from the bulk-sync script: last `/`-separated component of
the gid, `null` when absent or empty. -/
def gidToNumeric (gid : Option String) : Option String :=
  match gid with
  | none => none
  | some g =>
    match ((splitChars '/' g.data).map String.mk).getLast? with
    | some last => if last = "" then none else some last
    | none => none

/-- Result of one bulk-sync upsert: the written row, whether it was created,
and the appended audit events. -/
structure UpsertResult where
  customer : Customer
  created : Bool
  events : List ConsentEvent
deriving DecidableEq, Repr

/-- `node.emailMarketingConsent?.marketingState || 'NOT_SUBSCRIBED'` of the
bulk-sync upsert. -/
def bulkRawState (node : ShopifyCustomerNode) : String :=
  if truthy node.marketingState then node.marketingState.getD "" else "NOT_SUBSCRIBED"

/-- The effective consent timestamp of a bulk-sync record: the consent
timestamp, else the customer's `updatedAt`, else the sync time. -/
def bulkEffectiveConsentAt (node : ShopifyCustomerNode) (now : Int) : Int :=
  match node.consentUpdatedAt with
  | some t => t
  | none =>
    match node.updatedAt with
    | some t => t
    | none => now

/-- `upsertOne` from the bulk-sync script (non-dry-run path): overwrites the
row with the snapshot's data patch and appends a `shopify_sync` event. -/
def upsertOne (existing : Option Customer) (node : ShopifyCustomerNode)
    (now : Int) : UpsertResult :=
  let shopifyCustomerId := gidToNumeric node.id
  let email := if truthy node.email then some (jsToLower (jsTrim (node.email.getD ""))) else none
  let firstName := if truthy node.firstName then node.firstName else none
  let lastName := if truthy node.lastName then node.lastName else none
  let marketingState := mapState (some (bulkRawState node))
  let consentUpdatedAt := bulkEffectiveConsentAt node now
  let lastCountry := if truthy node.countryCodeV2 then node.countryCodeV2 else none
  let cust : Customer :=
    match existing with
    | some c =>
      { c with
        email := email
        firstName := firstName
        lastName := lastName
        shopifyCustomerId := shopifyCustomerId
        lastState := some marketingState
        lastConsentAt := some consentUpdatedAt
        lastCountry := lastCountry }
    | none =>
      { email := email
        firstName := firstName
        lastName := lastName
        shopifyCustomerId := shopifyCustomerId
        lastState := some marketingState
        lastConsentAt := some consentUpdatedAt
        lastCountry := lastCountry }
  { customer := cust
    created := existing.isNone
    events := [{ type := "shopify_sync", state := some marketingState }] }

/-- Slice of a `ConsentSession` row read by the orders-create handler. -/
structure SessionRec where
  mode : Option String := none
  country : Option String := none
  ipCountry : Option String := none
  billingCountry : Option String := none
deriving DecidableEq, Repr

/-- Outcome of one Shopify admin GraphQL call: success with empty
`userErrors`, a `userErrors` list, or a thrown exception. -/
inductive GraphQLOutcome where
  | ok
  | userErrors (msgs : List String)
  | exn
deriving DecidableEq, Repr

/-- The platform responses the orders-create handler may consume: the first
consent mutation and the corrective `customerUpdate` (the outcome of the
one retry is not observable in the handler's state). -/
structure ShopifyOracle where
  firstMut : GraphQLOutcome
  custUpdate : GraphQLOutcome
deriving DecidableEq, Repr

/-- `(e.message || "").toLowerCase().includes("unique email")`. -/
def mentionsUniqueEmail (m : String) : Bool :=
  hasSubChars "unique email".data (jsToLower m).data

/-- Inputs of the orders-create handler: consent session, the latest toggle
event's state (as read by `latestToggle?.state`), payload identity fields,
and the row found by the `(shop, email)` lookup. -/
structure OrdersInput where
  hasSessionId : Bool := false
  session : Option SessionRec := none
  latestToggleState : Option TriState := none
  payloadEmail : Option String := none
  customerEmail : Option String := none
  firstName : Option String := none
  lastName : Option String := none
  customerNumericId : Option String := none
  existing : Option Customer := none
deriving DecidableEq, Repr

/-- Result of the orders-create handler: final customer row (none when no
email), synchronizer calls, mutation-call counters, and audit events. -/
structure OrdersResult where
  customer : Option Customer
  klaviyoCalls : List KlaviyoCall
  emailMutCalls : Nat
  customerUpdateCalls : Nat
  events : List ConsentEvent
  ok : Bool
deriving DecidableEq, Repr

/-- The subscribe decision of `webhooks.app.orders_create.jsx`: prefer the
latest toggle's state, else derive from the session's presentation mode,
else leave undefined. -/
def decideSubscribe (latestToggleState : Option TriState)
    (session : Option SessionRec) : Option Bool :=
  match latestToggleState with
  | some st => some (decide (st = TriState.SUBSCRIBED))
  | none =>
    match session with
    | some sess =>
      if sess.mode = some "OPT_OUT" ∨ sess.mode = some "NO_CHECKBOX" then some true
      else if sess.mode = some "OPT_IN" then some false
      else none
    | none => none

/-- `(payload.email || payload.customer?.email || "").trim().toLowerCase() || null`. -/
def ordersEmail (payloadEmail customerEmail : Option String) : Option String :=
  let raw :=
    if truthy payloadEmail then payloadEmail.getD ""
    else if truthy customerEmail then customerEmail.getD ""
    else ""
  let e := jsToLower (jsTrim raw)
  if e = "" then none else some e

/-- `(x || "").trim() || null` used for payload first/last name. -/
def normName (s : Option String) : Option String :=
  let t := jsTrim (if truthy s then s.getD "" else "")
  if t = "" then none else some t

/-- `setConsentWebhookSuppression` of the orders-create handler: arm the
fence for `minutes` minutes with the state about to be pushed. -/
def setConsentWebhookSuppression (c : Customer) (state : TriState)
    (now : Int) (minutes : Int) : Customer :=
  { c with
    suppressConsentWebhookUntil := some (now + minutes * 60 * 1000)
    suppressConsentState := some state }

/-- `clearConsentWebhookSuppression` of the orders-create handler. -/
def clearConsentWebhookSuppression (c : Customer) : Customer :=
  { c with suppressConsentWebhookUntil := none, suppressConsentState := none }

/-- Result of the Shopify consent push block: the (possibly re-fenced or
cleared) customer row and how many consent mutations and customer updates
were issued. -/
structure PushResult where
  customer : Option Customer
  emailMutCalls : Nat
  customerUpdateCalls : Nat
deriving DecidableEq, Repr

/-- The Shopify consent push of the orders-create handler: arm the fence,
issue the consent mutation, remediate a "unique email" conflict with one
`customerUpdate` and at most one retry, and clear the fence on every error
path (retry outcomes are only logged). -/
def shopifyConsentPush (row : Option Customer) (doPush emailPresent : Bool)
    (resolvedState : TriState) (o : ShopifyOracle) (now : Int) : PushResult :=
  if doPush then
    let armed := row.map (fun c => setConsentWebhookSuppression c resolvedState now 2)
    match o.firstMut with
    | GraphQLOutcome.ok =>
      { customer := armed, emailMutCalls := 1, customerUpdateCalls := 0 }
    | GraphQLOutcome.exn =>
      { customer := armed.map clearConsentWebhookSuppression
        emailMutCalls := 1, customerUpdateCalls := 0 }
    | GraphQLOutcome.userErrors msgs =>
      if msgs.any mentionsUniqueEmail && emailPresent then
        match o.custUpdate with
        | GraphQLOutcome.ok =>
          { customer := armed.map clearConsentWebhookSuppression
            emailMutCalls := 2, customerUpdateCalls := 1 }
        | GraphQLOutcome.exn =>
          { customer := armed.map clearConsentWebhookSuppression
            emailMutCalls := 1, customerUpdateCalls := 1 }
        | GraphQLOutcome.userErrors _ =>
          { customer := armed.map clearConsentWebhookSuppression
            emailMutCalls := 1, customerUpdateCalls := 1 }
      else
        { customer := armed.map clearConsentWebhookSuppression
          emailMutCalls := 1, customerUpdateCalls := 0 }
  else { customer := row, emailMutCalls := 0, customerUpdateCalls := 0 }

/-- The country written by the orders-create patch:
`session?.country || session?.ipCountry || session?.billingCountry || undefined`. -/
def sessionCountry (session : Option SessionRec) (keep : Option String) : Option String :=
  match session with
  | none => keep
  | some s =>
    if truthy s.country then s.country
    else if truthy s.ipCountry then s.ipCountry
    else if truthy s.billingCountry then s.billingCountry
    else keep

/-- The upserted customer row of the orders-create handler: `none` when the
payload resolves no email; the patch touching consent fields is applied
only when the subscribe outcome is known. -/
def ordersRow0 (inp : OrdersInput) (now : Int) : Option Customer :=
  let subscribe := decideSubscribe inp.latestToggleState inp.session
  let resolvedState := toStateFromSubscribe subscribe
  let email := ordersEmail inp.payloadEmail inp.customerEmail
  let firstName := normName inp.firstName
  let lastName := normName inp.lastName
  let numericId := inp.customerNumericId
  match email with
    | none => none
    | some e =>
      some (match inp.existing with
        | some c =>
          let c1 := { c with
            email := some e
            firstName := firstName
            lastName := lastName
            shopifyCustomerId := if truthy numericId then numericId else c.shopifyCustomerId }
          if subscribe.isSome then
            { c1 with
              lastState := some resolvedState
              lastConsentAt := some now
              lastMode := (match inp.session with
                | some s => if truthy s.mode then s.mode else c.lastMode
                | none => c.lastMode)
              lastCountry := sessionCountry inp.session c.lastCountry }
          else c1
        | none =>
          let base : Customer :=
            { email := some e
              shopifyCustomerId := if truthy numericId then numericId else none
              firstName := firstName
              lastName := lastName }
          if subscribe.isSome then
            { base with
              lastState := some resolvedState
              lastConsentAt := some now
              lastMode := (match inp.session with
                | some s => if truthy s.mode then s.mode else none
                | none => none)
              lastCountry := sessionCountry inp.session none }
          else base)

/-- The `action` of `webhooks.app.orders_create.jsx` as a pure function of
its inputs, the platform oracle and the arrival time.  The email-provider
sync runs only when the resolved state is known and differs from the stored
one; the Shopify push runs whenever a customer id exists and the outcome is
known. -/
def ordersCreateAction (inp : OrdersInput) (o : ShopifyOracle) (now : Int) : OrdersResult :=
  let subscribe := decideSubscribe inp.latestToggleState inp.session
  let resolvedState := toStateFromSubscribe subscribe
  let email := ordersEmail inp.payloadEmail inp.customerEmail
  let row0 := ordersRow0 inp now
  let klaviyoCalls :=
    if email.isSome && subscribe.isSome
        && !(inp.existing.bind Customer.lastState == some resolvedState) then
      [{ email := email.getD "", subscribed := subscribe.getD false }]
    else []
  let doPush := truthy inp.customerNumericId && subscribe.isSome
  let push := shopifyConsentPush row0 doPush email.isSome resolvedState o now
  let events : List ConsentEvent :=
    if inp.hasSessionId then [{ type := "shopify_checkout", state := some resolvedState }]
    else []
  { customer := push.customer
    klaviyoCalls := klaviyoCalls
    emailMutCalls := push.emailMutCalls
    customerUpdateCalls := push.customerUpdateCalls
    events := events
    ok := true }

/-- Klaviyo settings row slice used by `syncKlaviyoForCustomer`. -/
structure KlaviyoSettingsRec where
  hasKey : Bool := true
  singleOptListId : Option String := none
  doubleOptListId : Option String := none
deriving DecidableEq, Repr

/-- The profile returned by the Klaviyo lookup; `status := none` models both
an absent subscription status and the lite-fallback lookup. -/
structure KlaviyoProfile where
  id : String
  status : Option String := none
deriving DecidableEq, Repr

/-- Arguments of `syncKlaviyoForCustomer` (consent evidence flattened to the
two booleans the code reads). -/
structure SyncArgs where
  email : Option String := none
  subscribed : Option Bool := none
  sessionMode : Option String := none
  explicitToggle : Bool := false
  doiConfirmed : Bool := false
deriving DecidableEq, Repr

/-- The provider list operations a sync run issues. -/
structure SyncResult where
  subscribeCalls : List String
  unsubscribeCalls : List String
deriving DecidableEq, Repr

/-- `profile?.status || "never_subscribed"`: the provider profile's current
subscription status as the synchronizer sees it. -/
def klaviyoCurrentStatus (profile : Option KlaviyoProfile) : String :=
  match profile with
  | some pr => if truthy pr.status then pr.status.getD "" else "never_subscribed"
  | none => "never_subscribed"

/-- `syncKlaviyoForCustomer` from `sync-to-klaviyo.server.js`, as a function
of its arguments, the settings row, the matrix method (`"SOI"`/`"DOI"`/none)
and the looked-up profile.  Trait patches are unconditional and not part of
the observable list operations. -/
def syncKlaviyoForCustomer (args : SyncArgs) (settings : Option KlaviyoSettingsRec)
    (method : Option String) (profile : Option KlaviyoProfile) : SyncResult :=
  if !truthy args.email then { subscribeCalls := [], unsubscribeCalls := [] }
  else
    match settings with
    | none => { subscribeCalls := [], unsubscribeCalls := [] }
    | some st =>
      if !st.hasKey then { subscribeCalls := [], unsubscribeCalls := [] }
      else
        match args.subscribed with
        | none => { subscribeCalls := [], unsubscribeCalls := [] }
        | some subscribed =>
          let singleList := if truthy st.singleOptListId then st.singleOptListId else none
          let doubleList := if truthy st.doubleOptListId then st.doubleOptListId else none
          let targetListId : Option String :=
            if subscribed then
              if method = some "DOI" then (match doubleList with | some l => some l | none => singleList)
              else if method = some "SOI" then (match singleList with | some l => some l | none => doubleList)
              else if args.sessionMode = some "OPT_IN" then
                (match doubleList with | some l => some l | none => singleList)
              else (match singleList with | some l => some l | none => doubleList)
            else none
          if subscribed && targetListId.isNone then
            { subscribeCalls := [], unsubscribeCalls := [] }
          else
            let currentStatus := klaviyoCurrentStatus profile
            let explicitConsent := args.explicitToggle || args.doiConfirmed
            if subscribed then
              if currentStatus = "subscribed" then
                { subscribeCalls := [], unsubscribeCalls := [] }
              else if currentStatus = "suppressed" && !explicitConsent then
                { subscribeCalls := [], unsubscribeCalls := [] }
              else
                { subscribeCalls := [targetListId.getD ""], unsubscribeCalls := [] }
            else
              { subscribeCalls := []
                unsubscribeCalls := ([singleList, doubleList].filterMap id).dedup }

/-- A row of the consent matrix table (`consent-matrix.server.js`). -/
structure MatrixRow where
  country_code : Option String := none
  country : Option String := none
  customer_type : Option String := none
  widget : String := ""
  email_method : Option String := none
deriving DecidableEq, Repr

/-- The rule value built by `loadMatrix` for each row. -/
structure Rule where
  widget : String
  emailMethod : Option String := none
  country : Option String := none
  countryCode : Option String := none
deriving DecidableEq, Repr

/-- Segment key of a row: `String(r.customer_type || "single").toLowerCase()`. -/
def rowCt (r : MatrixRow) : String :=
  jsToLower (if truthy r.customer_type then r.customer_type.getD "" else "single")

/-- Code index key of a row. -/
def codeKey (r : MatrixRow) : String :=
  jsToUpper (jsTrim (r.country_code.getD "")) ++ "|" ++ rowCt r

/-- Name index key of a row. -/
def nameKey (r : MatrixRow) : String :=
  jsToLower (jsTrim (r.country.getD "")) ++ "|" ++ rowCt r

/-- The rule value stored in both indexes for a row. -/
def rowValue (r : MatrixRow) : Rule :=
  { widget := jsToUpper r.widget
    emailMethod := r.email_method
    country := if truthy r.country then r.country else none
    countryCode := if truthy r.country_code then r.country_code else none }

/-- `Map.set`-built index lookup: the value of the last row producing the
requested key. -/
def mapGet (rows : List MatrixRow) (key : MatrixRow → String) (k : String) : Option Rule :=
  match (rows.filter (fun r => key r == k)).getLast? with
  | some r => some (rowValue r)
  | none => none

/-- Lookup in the by-code index with the key `pickRule` builds. -/
def byCodeGet (rows : List MatrixRow) (k : String) : Option Rule :=
  mapGet rows codeKey k

/-- Lookup in the by-name index with the key `pickRule` builds. -/
def byNameGet (rows : List MatrixRow) (k : String) : Option Rule :=
  mapGet rows nameKey k

/-- The exact region-code + segment probe of `pickRule`. -/
def codeHit (rows : List MatrixRow) (code customerType : Option String) : Option Rule :=
  let ct := jsToLower (customerType.getD "single")
  if truthy code then byCodeGet rows (jsToUpper (code.getD "") ++ "|" ++ ct) else none

/-- The region-name + segment probe of `pickRule`. -/
def nameHit (rows : List MatrixRow) (country customerType : Option String) : Option Rule :=
  let ct := jsToLower (customerType.getD "single")
  if truthy country then byNameGet rows (jsToLower (country.getD "") ++ "|" ++ ct) else none

/-- `pickRule` from `consent-matrix.server.js`: code probe, then name probe,
then the table's GB rule for the segment, then the GB "single" rule, then
the hardcoded safe default. -/
def pickRule (rows : List MatrixRow) (code country customerType : Option String) : Rule :=
  let ct := jsToLower (customerType.getD "single")
  match codeHit rows code customerType with
  | some hit => hit
  | none =>
    match nameHit rows country customerType with
    | some hit => hit
    | none =>
      match byCodeGet rows ("GB|" ++ ct) with
      | some r => r
      | none =>
        match byCodeGet rows "GB|single" with
        | some r => r
        | none =>
          { widget := "OPT_OUT"
            emailMethod := some "SOI"
            country := some "United Kingdom"
            countryCode := some "GB" }

/-- Modelled from the spec: the policy table `app/data/consent_matrix.json`
itself is not among the sources (the spec treats it as externally
configured rows of region code, region name, segment, presentation mode and
confirmation strength); per the spec, its default rule for region code "GB"
carries presentation OPT_OUT and single-opt-in (SOI) confirmation, with no
segment specified so the row acts as the wildcard default. -/
def consentMatrix : List MatrixRow :=
  [{ country_code := some "GB"
     country := some "United Kingdom"
     customer_type := none
     widget := "OPT_OUT"
     email_method := some "SOI" }]

/-- The fixed default policy rule of the spec. -/
def defaultRule : Rule :=
  { widget := "OPT_OUT"
    emailMethod := some "SOI"
    country := some "United Kingdom"
    countryCode := some "GB" }

/-- The mode decision of the storefront policy loader
(`api.settings.privacy.jsx`): a stored `UNSUBSCRIBED` record forces
`OPT_IN`, otherwise the rule's widget mode (`|| "OPT_IN"`). -/
def privacyLoaderMode (rule : Option Rule) (currentState : Option TriState) : String :=
  let baseMode :=
    if truthy (rule.map Rule.widget) then (rule.map Rule.widget).getD "" else "OPT_IN"
  if currentState = some TriState.UNSUBSCRIBED then "OPT_IN" else baseMode

/-- The loader's mode as a function of the picked rule and the looked-up
customer row (`existing?.lastState || null`). -/
def privacyLoader (rule : Option Rule) (existing : Option Customer) : String :=
  privacyLoaderMode rule (existing.bind Customer.lastState)

/-- Payload slice of the `customers_update` webhook. -/
structure CustomersUpdatePayload where
  id : Option String := none
  email : Option String := none
  first_name : Option String := none
  last_name : Option String := none
  consentState : Option String := none
  consentUpdatedAt : Option Int := none
  acceptsMarketing : Option Bool := none
deriving DecidableEq, Repr

/-- `String(raw).toUpperCase().replace(/[\s-]/g, "_")`. -/
def normalizeStateToken (s : String) : String :=
  String.mk ((jsToUpper s).data.map (fun c => if c = '-' ∨ c.isWhitespace then '_' else c))

/-- `resolveMarketingState` of `webhooks.app.customers_update.jsx`: prefer
the modern consent object, fall back to `accepts_marketing`, else `null`. -/
def resolveMarketingState (p : CustomersUpdatePayload) : Option TriState :=
  let fromConsent : Option TriState :=
    if truthy p.consentState then
      let s := normalizeStateToken (p.consentState.getD "")
      if s = "SUBSCRIBED" then some TriState.SUBSCRIBED
      else if s = "UNSUBSCRIBED" then some TriState.UNSUBSCRIBED
      else if s = "NOT_SUBSCRIBED" then some TriState.NOT_SUBSCRIBED
      else none
    else none
  match fromConsent with
  | some st => some st
  | none =>
    match p.acceptsMarketing with
    | some b => some (if b then TriState.SUBSCRIBED else TriState.NOT_SUBSCRIBED)
    | none => none

/-- `resolveConsentUpdatedAt`: the payload's valid consent timestamp, else
the arrival time. -/
def resolveConsentUpdatedAt (p : CustomersUpdatePayload) (now : Int) : Int :=
  p.consentUpdatedAt.getD now

/-- The `action` of `webhooks.app.customers_update.jsx` as a function of the
row found by the `(shop, shopifyCustomerId)` lookup, the payload and the
arrival time; `none` when the payload carries no customer id. -/
def customersUpdateAction (current : Option Customer) (p : CustomersUpdatePayload)
    (now : Int) : Option UpsertResult :=
  match p.id with
  | none => none
  | some shopifyId =>
    let nextEmail := if truthy p.email then some (jsTrim (jsToLower (p.email.getD ""))) else none
    let nextFirst := if truthy p.first_name then p.first_name else none
    let nextLast := if truthy p.last_name then p.last_name else none
    let changed :=
      (match current with | none => true | some c => decide (c.email ≠ nextEmail)) ||
      (match current with | none => true | some c => decide (c.firstName ≠ nextFirst)) ||
      (match current with | none => true | some c => decide (c.lastName ≠ nextLast))
    let incomingState := resolveMarketingState p
    let incomingConsentAt := resolveConsentUpdatedAt p now
    let cust : Customer :=
      match current with
      | some c =>
        { c with email := nextEmail, firstName := nextFirst, lastName := nextLast }
      | none =>
        { shopifyCustomerId := some shopifyId
          email := nextEmail
          firstName := nextFirst
          lastName := nextLast
          lastState := some (incomingState.getD TriState.NOT_SUBSCRIBED)
          lastConsentAt := some incomingConsentAt }
    some { customer := cust
           created := current.isNone
           events := if changed then [{ type := "shopify_profile_update", state := none }] else [] }

/-- Claim C10: tri-state totality — the state mappings of the consent
webhook (`toState`) and the bulk sync (`mapState`) send every raw platform
input, including null and unrecognized strings, to exactly one member of
the closed tri-state enum, defaulting to `NOT_SUBSCRIBED`. -/
theorem tri_state_totality :
    (∀ raw, toState raw = TriState.SUBSCRIBED ∨ toState raw = TriState.UNSUBSCRIBED ∨
      toState raw = TriState.NOT_SUBSCRIBED) ∧
    (∀ s, mapState s = TriState.SUBSCRIBED ∨ mapState s = TriState.UNSUBSCRIBED ∨
      mapState s = TriState.NOT_SUBSCRIBED) ∧
    toState none = TriState.NOT_SUBSCRIBED ∧
    mapState none = TriState.NOT_SUBSCRIBED ∧
    (∀ s, jsToLower s ≠ "subscribed" → jsToLower s ≠ "unsubscribed" →
      jsToLower s ≠ "not_subscribed" → toState (some s) = TriState.NOT_SUBSCRIBED) ∧
    (∀ s, s ≠ "SUBSCRIBED" → s ≠ "UNSUBSCRIBED" → s ≠ "NOT_SUBSCRIBED" →
      mapState (some s) = TriState.NOT_SUBSCRIBED) := by
  refine ⟨fun raw => ?_, fun s => ?_, by decide, by decide, fun s h1 h2 h3 => ?_, fun s h1 h2 h3 => ?_⟩
  · cases h : toState raw <;> simp
  · cases h : mapState s <;> simp
  · simp [toState, h1, h2, h3]
  · simp [mapState, h1, h2, h3]

/-- Witness for C10 at a concrete unrecognized input. -/
theorem tri_state_totality_witness :
    toState (some "Pending") = TriState.NOT_SUBSCRIBED ∧
    mapState (some "pending") = TriState.NOT_SUBSCRIBED :=
  ⟨tri_state_totality.2.2.2.2.1 "Pending" (by decide) (by decide) (by decide),
   tri_state_totality.2.2.2.2.2 "pending" (by decide) (by decide) (by decide)⟩

/-- Claim C1: echo suppression — when the stored record carries an armed
fence and a consent webhook arrives not later than the fence's
until-timestamp with an observed tri-state equal to the expected one, the
handler clears the fence, leaves status and lastConsentAt unchanged,
appends no event and issues no email-provider sync call. -/
theorem echo_suppression (c : Customer) (p : ConsentWebhookPayload) (now u : Int)
    (s : TriState)
    (hu : c.suppressConsentWebhookUntil = some u)
    (hs : c.suppressConsentState = some s)
    (ht : now ≤ u)
    (hobs : toState p.consent_state = s) :
    (consentWebhookAction (some c) p now).customer.lastState = c.lastState ∧
    (consentWebhookAction (some c) p now).customer.lastConsentAt = c.lastConsentAt ∧
    (consentWebhookAction (some c) p now).customer.suppressConsentWebhookUntil = none ∧
    (consentWebhookAction (some c) p now).customer.suppressConsentState = none ∧
    (consentWebhookAction (some c) p now).events = [] ∧
    (consentWebhookAction (some c) p now).klaviyoCalls = [] := by
  have hb : fenceBlocks c (toState p.consent_state) now = true := by
    simp [fenceBlocks, hu, hs, hobs, ht]
  simp [consentWebhookAction, hb]

/-- Witness for C1 at a concrete fenced record and an echo payload. -/
theorem echo_suppression_witness :
    (consentWebhookAction
        (some { lastState := some TriState.SUBSCRIBED, lastConsentAt := some 100,
                suppressConsentWebhookUntil := some 300,
                suppressConsentState := some TriState.SUBSCRIBED })
        { email_address := some "a@b.c", consent_state := some "subscribed",
          consent_updated_at := some 250 }
        200).customer.lastState = some TriState.SUBSCRIBED ∧
    (consentWebhookAction
        (some { lastState := some TriState.SUBSCRIBED, lastConsentAt := some 100,
                suppressConsentWebhookUntil := some 300,
                suppressConsentState := some TriState.SUBSCRIBED })
        { email_address := some "a@b.c", consent_state := some "subscribed",
          consent_updated_at := some 250 }
        200).events = [] ∧
    (consentWebhookAction
        (some { lastState := some TriState.SUBSCRIBED, lastConsentAt := some 100,
                suppressConsentWebhookUntil := some 300,
                suppressConsentState := some TriState.SUBSCRIBED })
        { email_address := some "a@b.c", consent_state := some "subscribed",
          consent_updated_at := some 250 }
        200).klaviyoCalls = [] := by
  have h := echo_suppression
    { lastState := some TriState.SUBSCRIBED, lastConsentAt := some 100,
      suppressConsentWebhookUntil := some 300,
      suppressConsentState := some TriState.SUBSCRIBED }
    { email_address := some "a@b.c", consent_state := some "subscribed",
      consent_updated_at := some 250 }
    200 300 TriState.SUBSCRIBED rfl rfl (by decide) (by decide)
  exact ⟨h.1, h.2.2.2.2.1, h.2.2.2.2.2⟩

/-- Claim C2 counterexample: the consent webhook handler performs no
recency comparison — a platform consent webhook whose effective timestamp
(50) is older than the stored `lastConsentAt` (100) still overwrites both
the stored status and the stored timestamp with the older values. -/
theorem stale_write_rejection_counterexample :
    ((50 : Int) < 100) ∧
    (consentWebhookAction
        (some { lastState := some TriState.SUBSCRIBED, lastConsentAt := some 100 })
        { customer_id := some "7", email_address := some "a@b.c",
          consent_state := some "unsubscribed", consent_updated_at := some 50 }
        200).customer.lastState = some TriState.UNSUBSCRIBED ∧
    (consentWebhookAction
        (some { lastState := some TriState.SUBSCRIBED, lastConsentAt := some 100 })
        { customer_id := some "7", email_address := some "a@b.c",
          consent_state := some "unsubscribed", consent_updated_at := some 50 }
        200).customer.lastConsentAt = some 50 := by
  decide

/-- Claim C2 (amended): platform-authoritative signals perform no
stale-write rejection — a consent webhook that the fence does not suppress,
and every bulk-sync record, overwrite the stored status and lastConsentAt
with the signal's mapped state and effective timestamp unconditionally,
regardless of how they compare with the stored `lastConsentAt`. -/
theorem stale_overwrite_unconditional (c : Customer) (p : ConsentWebhookPayload)
    (node : ShopifyCustomerNode) (now : Int)
    (hf : fenceBlocks c (toState p.consent_state) now = false) :
    (consentWebhookAction (some c) p now).customer.lastState
      = some (toState p.consent_state) ∧
    (consentWebhookAction (some c) p now).customer.lastConsentAt
      = some (p.consent_updated_at.getD now) ∧
    (upsertOne (some c) node now).customer.lastState
      = some (mapState (some (bulkRawState node))) ∧
    (upsertOne (some c) node now).customer.lastConsentAt
      = some (bulkEffectiveConsentAt node now) := by
  refine ⟨?_, ?_, ?_, ?_⟩ <;>
    simp [consentWebhookAction, consentWebhookApply, upsertOne, hf]

/-- Witness for the amended C2 at a concrete stale webhook and bulk record. -/
theorem stale_overwrite_unconditional_witness :
    (consentWebhookAction
        (some { lastState := some TriState.SUBSCRIBED, lastConsentAt := some 100 })
        { customer_id := some "7", email_address := some "a@b.c",
          consent_state := some "unsubscribed", consent_updated_at := some 50 }
        200).customer.lastState = some TriState.UNSUBSCRIBED ∧
    (upsertOne
        (some { lastState := some TriState.SUBSCRIBED, lastConsentAt := some 100 })
        { id := some "gid://shopify/Customer/7", email := some "a@b.c",
          marketingState := some "UNSUBSCRIBED", consentUpdatedAt := some 50 }
        200).customer.lastConsentAt = some 50 := by
  have h := stale_overwrite_unconditional
    { lastState := some TriState.SUBSCRIBED, lastConsentAt := some 100 }
    { customer_id := some "7", email_address := some "a@b.c",
      consent_state := some "unsubscribed", consent_updated_at := some 50 }
    { id := some "gid://shopify/Customer/7", email := some "a@b.c",
      marketingState := some "UNSUBSCRIBED", consentUpdatedAt := some 50 }
    200 (by decide)
  exact ⟨h.1, h.2.2.2⟩

/-- Claim C9: unsubscribed-customer presentation override — the storefront
policy endpoint returns presentation mode OPT_IN whenever the stored record
for the shopper's email has status UNSUBSCRIBED, overriding the country
rule's widget mode; for every other stored state the rule's mode is
returned. -/
theorem unsubscribed_presentation_override (rule : Rule) (existing : Option Customer) :
    (existing.bind Customer.lastState = some TriState.UNSUBSCRIBED →
      privacyLoader (some rule) existing = "OPT_IN") ∧
    (existing.bind Customer.lastState ≠ some TriState.UNSUBSCRIBED → rule.widget ≠ "" →
      privacyLoader (some rule) existing = rule.widget) := by
  constructor
  · intro h
    simp [privacyLoader, privacyLoaderMode, h]
  · intro h hw
    simp [privacyLoader, privacyLoaderMode, h, truthy, hw]

/-- Witness for C9: an unsubscribed record forces OPT_IN under an OPT_OUT
country rule, and a subscribed record keeps the rule's mode. -/
theorem unsubscribed_presentation_override_witness :
    privacyLoader (some { widget := "OPT_OUT" })
      (some { lastState := some TriState.UNSUBSCRIBED }) = "OPT_IN" ∧
    privacyLoader (some { widget := "OPT_OUT" })
      (some { lastState := some TriState.SUBSCRIBED }) = "OPT_OUT" :=
  ⟨(unsubscribed_presentation_override { widget := "OPT_OUT" }
      (some { lastState := some TriState.UNSUBSCRIBED })).1 rfl,
   (unsubscribed_presentation_override { widget := "OPT_OUT" }
      (some { lastState := some TriState.SUBSCRIBED })).2 (by decide) (by decide)⟩

/-- Claim C8: profile-update frame — on an existing record the
customers-update webhook touches only the profile fields (email, first
name, last name) and leaves the stored consent status, lastConsentAt, and
every other consent-bearing field unchanged; only on first-ever creation,
when the payload carries no explicit consent state, is the status seeded
as `NOT_SUBSCRIBED`. -/
theorem profile_update_frame (current : Option Customer) (p : CustomersUpdatePayload)
    (now : Int) :
    (∀ c r, current = some c → customersUpdateAction current p now = some r →
      r.customer.lastState = c.lastState ∧
      r.customer.lastConsentAt = c.lastConsentAt ∧
      r.customer.lastMode = c.lastMode ∧
      r.customer.lastCountry = c.lastCountry ∧
      r.customer.suppressConsentWebhookUntil = c.suppressConsentWebhookUntil ∧
      r.customer.suppressConsentState = c.suppressConsentState) ∧
    (∀ r, current = none → resolveMarketingState p = none →
      customersUpdateAction current p now = some r →
      r.customer.lastState = some TriState.NOT_SUBSCRIBED) := by
  constructor
  · intro c r hc hr
    subst hc
    cases hid : p.id with
    | none => simp [customersUpdateAction, hid] at hr
    | some shopifyId =>
      simp only [customersUpdateAction, hid, Option.some.injEq] at hr
      subst hr
      simp
  · intro r hc hres hr
    subst hc
    cases hid : p.id with
    | none => simp [customersUpdateAction, hid] at hr
    | some shopifyId =>
      simp only [customersUpdateAction, hid, Option.some.injEq] at hr
      subst hr
      simp [hres]

/-- Witness for C8: an existing subscribed record keeps its status across a
profile update, and a first-ever creation without consent data seeds
`NOT_SUBSCRIBED`. -/
theorem profile_update_frame_witness :
    (customersUpdateAction
        (some { lastState := some TriState.SUBSCRIBED, lastConsentAt := some 100 })
        { id := some "7", email := some "new@b.c", first_name := some "Ada" }
        200).map (fun r => r.customer.lastState) = some (some TriState.SUBSCRIBED) ∧
    (customersUpdateAction none { id := some "8", email := some "x@y.z" }
        200).map (fun r => r.customer.lastState) = some (some TriState.NOT_SUBSCRIBED) := by
  have h1 := (profile_update_frame
    (some { lastState := some TriState.SUBSCRIBED, lastConsentAt := some 100 })
    { id := some "7", email := some "new@b.c", first_name := some "Ada" } 200).1
    { lastState := some TriState.SUBSCRIBED, lastConsentAt := some 100 }
    ((customersUpdateAction
      (some { lastState := some TriState.SUBSCRIBED, lastConsentAt := some 100 })
      { id := some "7", email := some "new@b.c", first_name := some "Ada" } 200).get (by decide))
    rfl (by simp)
  have h2 := (profile_update_frame none { id := some "8", email := some "x@y.z" } 200).2
    ((customersUpdateAction none { id := some "8", email := some "x@y.z" } 200).get (by decide))
    rfl (by decide) (by simp)
  constructor
  · have := h1.1
    revert this
    decide
  · revert h2
    decide

/-- The by-code index built from the modelled matrix holds exactly the GB
wildcard row under the key `GB|single`. -/
theorem byCodeGet_consentMatrix (k : String) :
    byCodeGet consentMatrix k = if k = "GB|single" then some defaultRule else none := by
  have hck : codeKey
      { country_code := some "GB"
        country := some "United Kingdom"
        customer_type := none
        widget := "OPT_OUT"
        email_method := some "SOI" } = "GB|single" := by
    decide
  by_cases h : k = "GB|single"
  · subst h
    decide
  · have hbeq : (codeKey
        { country_code := some "GB"
          country := some "United Kingdom"
          customer_type := none
          widget := "OPT_OUT"
          email_method := some "SOI" } == k) = false := by
      rw [hck, beq_eq_false_iff_ne]
      exact fun hh => h hh.symm
    simp [byCodeGet, mapGet, consentMatrix, hbeq, h]

/-- Claim C6: policy resolver fallback — `pickRule` tries the exact
region-code + segment probe, then the region-name + segment probe, and
otherwise returns the fixed default rule (region code GB, presentation
OPT_OUT, single-opt-in SOI confirmation); in particular it is a total
function, so an unknown segment or a failed order-count derivation yields
this default rule rather than an exception. -/
theorem policy_resolver_fallback :
    (∀ code country customerType r, codeHit consentMatrix code customerType = some r →
      pickRule consentMatrix code country customerType = r) ∧
    (∀ code country customerType r, codeHit consentMatrix code customerType = none →
      nameHit consentMatrix country customerType = some r →
      pickRule consentMatrix code country customerType = r) ∧
    (∀ code country customerType, codeHit consentMatrix code customerType = none →
      nameHit consentMatrix country customerType = none →
      pickRule consentMatrix code country customerType = defaultRule) := by
  refine ⟨fun code country customerType r h => ?_,
          fun code country customerType r h1 h2 => ?_,
          fun code country customerType h1 h2 => ?_⟩
  · simp [pickRule, h]
  · simp [pickRule, h1, h2]
  · simp only [pickRule, h1, h2, byCodeGet_consentMatrix]
    split
    · rename_i r heq
      split at heq <;> simp_all
    · rename_i heq
      simp

/-- Witness for C6: an unknown region code with unknown segment falls back
to the fixed GB default rule. -/
theorem policy_resolver_fallback_witness :
    pickRule consentMatrix (some "ZZ") none none = defaultRule :=
  policy_resolver_fallback.2.2 (some "ZZ") none none (by decide) (by decide)

set_option maxHeartbeats 1000000 in
/-- Claim C5: suppressed-profile guard — when the sync target is
"subscribed", a provider profile already in status `subscribed` produces no
subscribe request, and a profile in status `suppressed` with no explicit
strong-consent evidence (neither an explicit toggle nor a double-opt-in
confirmation) also produces no subscribe request. -/
theorem suppressed_profile_guard (args : SyncArgs) (settings : Option KlaviyoSettingsRec)
    (method : Option String) (profile : Option KlaviyoProfile)
    (hsub : args.subscribed = some true) :
    (klaviyoCurrentStatus profile = "subscribed" →
      (syncKlaviyoForCustomer args settings method profile).subscribeCalls = []) ∧
    (klaviyoCurrentStatus profile = "suppressed" →
      args.explicitToggle = false → args.doiConfirmed = false →
      (syncKlaviyoForCustomer args settings method profile).subscribeCalls = []) := by
  constructor
  · intro hstat
    simp only [syncKlaviyoForCustomer, hsub]
    repeat' split
    all_goals simp_all
  · intro hstat h1 h2
    simp only [syncKlaviyoForCustomer, hsub]
    all_goals simp_all
    all_goals repeat' split
    all_goals simp_all

/-- Witness for C5: a suppressed profile with weak evidence and a
subscribed profile both yield no subscribe call. -/
theorem suppressed_profile_guard_witness :
    (syncKlaviyoForCustomer { email := some "a@b.c", subscribed := some true }
      (some { singleOptListId := some "L1" }) none
      (some { id := "p1", status := some "suppressed" })).subscribeCalls = [] ∧
    (syncKlaviyoForCustomer { email := some "a@b.c", subscribed := some true }
      (some { singleOptListId := some "L1" }) none
      (some { id := "p1", status := some "subscribed" })).subscribeCalls = [] :=
  ⟨(suppressed_profile_guard { email := some "a@b.c", subscribed := some true }
      (some { singleOptListId := some "L1" }) none
      (some { id := "p1", status := some "suppressed" }) rfl).2 (by decide) rfl rfl,
   (suppressed_profile_guard { email := some "a@b.c", subscribed := some true }
      (some { singleOptListId := some "L1" }) none
      (some { id := "p1", status := some "subscribed" }) rfl).1 (by decide)⟩

/-- The Shopify consent push never changes the stored status of the row it
re-fences or clears. -/
theorem shopifyConsentPush_lastState (row : Option Customer) (dp ep : Bool)
    (st : TriState) (o : ShopifyOracle) (now : Int) :
    (shopifyConsentPush row dp ep st o now).customer.map Customer.lastState
      = row.map Customer.lastState := by
  unfold shopifyConsentPush
  cases dp with
  | false => simp
  | true =>
    cases o.firstMut with
    | ok =>
      cases row <;> simp [setConsentWebhookSuppression]
    | exn =>
      cases row <;> simp [setConsentWebhookSuppression, clearConsentWebhookSuppression]
    | userErrors msgs =>
      by_cases hc : (msgs.any mentionsUniqueEmail && ep) = true <;>
        cases o.custUpdate <;>
        cases row <;>
        simp [hc, setConsentWebhookSuppression, clearConsentWebhookSuppression]

/-- The final customer row of the orders-create handler carries the stored
status of the upserted row. -/
theorem ordersCreateAction_customer_lastState (inp : OrdersInput) (o : ShopifyOracle)
    (now : Int) :
    (ordersCreateAction inp o now).customer.map Customer.lastState
      = (ordersRow0 inp now).map Customer.lastState := by
  simp only [ordersCreateAction]
  exact shopifyConsentPush_lastState _ _ _ _ _ _

/-- When the handler resolves an email and a known subscribe outcome, the
upserted row stores exactly the resolved tri-state. -/
theorem ordersRow0_lastState_of_known (inp : OrdersInput) (now : Int)
    (he : (ordersEmail inp.payloadEmail inp.customerEmail).isSome = true)
    (hsub : (decideSubscribe inp.latestToggleState inp.session).isSome = true) :
    (ordersRow0 inp now).map Customer.lastState
      = some (some (toStateFromSubscribe (decideSubscribe inp.latestToggleState inp.session))) := by
  obtain ⟨e, hee⟩ := Option.isSome_iff_exists.mp he
  unfold ordersRow0
  rw [hee]
  cases inp.existing <;> simp [hsub]

/-- Claim C4 counterexample: with a consent session present, a latest
checkout toggle recording `NOT_SUBSCRIBED` is stored as `UNSUBSCRIBED`
(the resolved status is not taken verbatim from the toggle), and with no
toggle an `OPT_IN` presentation mode also stores `UNSUBSCRIBED`, not the
`NOT_SUBSCRIBED` the claim requires. -/
theorem checkout_derivation_counterexample :
    (ordersCreateAction
        { session := some { mode := some "OPT_OUT" },
          latestToggleState := some TriState.NOT_SUBSCRIBED,
          payloadEmail := some "x@y.z" }
        { firstMut := GraphQLOutcome.ok, custUpdate := GraphQLOutcome.ok }
        500).customer.map Customer.lastState = some (some TriState.UNSUBSCRIBED) ∧
    (ordersCreateAction
        { session := some { mode := some "OPT_IN" },
          payloadEmail := some "x@y.z" }
        { firstMut := GraphQLOutcome.ok, custUpdate := GraphQLOutcome.ok }
        500).customer.map Customer.lastState = some (some TriState.UNSUBSCRIBED) ∧
    some (some TriState.UNSUBSCRIBED) ≠ some (some TriState.NOT_SUBSCRIBED) := by
  decide

/-- Claim C4 (amended): for every order-created signal carrying a consent
session and resolving an email, the stored status is `SUBSCRIBED` when the
latest checkout toggle records `SUBSCRIBED` and `UNSUBSCRIBED` when it
records any other state (in particular a latest toggle of `UNSUBSCRIBED`
yields `UNSUBSCRIBED`); with no toggle, presentation mode OPT_OUT or
NO_CHECKBOX yields `SUBSCRIBED` and OPT_IN yields `UNSUBSCRIBED`. -/
theorem checkout_derivation_amended (inp : OrdersInput) (o : ShopifyOracle) (now : Int)
    (sess : SessionRec) (hs : inp.session = some sess)
    (he : (ordersEmail inp.payloadEmail inp.customerEmail).isSome = true) :
    (∀ st, inp.latestToggleState = some st →
      (ordersCreateAction inp o now).customer.map Customer.lastState
        = some (some (if st = TriState.SUBSCRIBED then TriState.SUBSCRIBED
                      else TriState.UNSUBSCRIBED))) ∧
    (inp.latestToggleState = none →
      (sess.mode = some "OPT_OUT" ∨ sess.mode = some "NO_CHECKBOX") →
      (ordersCreateAction inp o now).customer.map Customer.lastState
        = some (some TriState.SUBSCRIBED)) ∧
    (inp.latestToggleState = none → sess.mode = some "OPT_IN" →
      (ordersCreateAction inp o now).customer.map Customer.lastState
        = some (some TriState.UNSUBSCRIBED)) := by
  refine ⟨fun st htog => ?_, fun htog hm => ?_, fun htog hm => ?_⟩
  · have hsub : (decideSubscribe inp.latestToggleState inp.session).isSome = true := by
      simp [decideSubscribe, htog]
    rw [ordersCreateAction_customer_lastState, ordersRow0_lastState_of_known inp now he hsub]
    by_cases hst : st = TriState.SUBSCRIBED <;>
      simp [decideSubscribe, htog, hst, toStateFromSubscribe]
  · have hsub : (decideSubscribe inp.latestToggleState inp.session).isSome = true := by
      rcases hm with hm | hm <;> simp [decideSubscribe, htog, hs, hm]
    rw [ordersCreateAction_customer_lastState, ordersRow0_lastState_of_known inp now he hsub]
    rcases hm with hm | hm <;>
      simp only [decideSubscribe, htog, hs, hm] <;> decide
  · have hsub : (decideSubscribe inp.latestToggleState inp.session).isSome = true := by
      simp [decideSubscribe, htog, hs, hm]
    rw [ordersCreateAction_customer_lastState, ordersRow0_lastState_of_known inp now he hsub]
    simp only [decideSubscribe, htog, hs, hm]
    decide

/-- Witness for the amended C4: an `UNSUBSCRIBED` toggle stores
`UNSUBSCRIBED`, and with no toggle OPT_OUT stores `SUBSCRIBED`. -/
theorem checkout_derivation_amended_witness :
    (ordersCreateAction
        { session := some { mode := some "OPT_OUT" },
          latestToggleState := some TriState.UNSUBSCRIBED,
          payloadEmail := some "x@y.z" }
        { firstMut := GraphQLOutcome.ok, custUpdate := GraphQLOutcome.ok }
        500).customer.map Customer.lastState = some (some TriState.UNSUBSCRIBED) ∧
    (ordersCreateAction
        { session := some { mode := some "OPT_OUT" },
          payloadEmail := some "x@y.z" }
        { firstMut := GraphQLOutcome.ok, custUpdate := GraphQLOutcome.ok }
        500).customer.map Customer.lastState = some (some TriState.SUBSCRIBED) := by
  constructor
  · have h := (checkout_derivation_amended
      { session := some { mode := some "OPT_OUT" },
        latestToggleState := some TriState.UNSUBSCRIBED,
        payloadEmail := some "x@y.z" }
      { firstMut := GraphQLOutcome.ok, custUpdate := GraphQLOutcome.ok }
      500 { mode := some "OPT_OUT" } rfl (by decide)).1 TriState.UNSUBSCRIBED rfl
    simpa using h
  · exact (checkout_derivation_amended
      { session := some { mode := some "OPT_OUT" },
        payloadEmail := some "x@y.z" }
      { firstMut := GraphQLOutcome.ok, custUpdate := GraphQLOutcome.ok }
      500 { mode := some "OPT_OUT" } rfl (by decide)).2.1 rfl (Or.inl rfl)

/-- The email-provider calls of the orders-create handler, unfolded. -/
theorem ordersCreateAction_klaviyoCalls (inp : OrdersInput) (o : ShopifyOracle) (now : Int) :
    (ordersCreateAction inp o now).klaviyoCalls =
      (if (ordersEmail inp.payloadEmail inp.customerEmail).isSome
          && (decideSubscribe inp.latestToggleState inp.session).isSome
          && !(inp.existing.bind Customer.lastState
                == some (toStateFromSubscribe (decideSubscribe inp.latestToggleState inp.session))) then
        [{ email := (ordersEmail inp.payloadEmail inp.customerEmail).getD ""
           subscribed := (decideSubscribe inp.latestToggleState inp.session).getD false }]
      else []) := rfl

/-- Whenever the push branch runs, at least one consent mutation is issued. -/
theorem shopifyConsentPush_calls_pos (row : Option Customer) (ep : Bool)
    (st : TriState) (o : ShopifyOracle) (now : Int) :
    1 ≤ (shopifyConsentPush row true ep st o now).emailMutCalls := by
  unfold shopifyConsentPush
  cases o.firstMut with
  | ok => simp
  | exn => simp
  | userErrors msgs =>
    by_cases hc : (msgs.any mentionsUniqueEmail && ep) = true <;>
      cases o.custUpdate <;> simp [hc]

/-- Claim C3 counterexample: the consent webhook handler performs no
change detection — on a record already stored as `SUBSCRIBED`, a webhook
whose candidate status is also `SUBSCRIBED` still issues an email-provider
synchronizer call (and re-applying it issues another). -/
theorem change_detection_counterexample :
    toState (some "subscribed") = TriState.SUBSCRIBED ∧
    (consentWebhookAction
        (some { lastState := some TriState.SUBSCRIBED, lastConsentAt := some 100 })
        { customer_id := some "7", email_address := some "a@b.c",
          consent_state := some "subscribed", consent_updated_at := some 150 }
        200).klaviyoCalls = [{ email := "a@b.c", subscribed := true }] := by
  decide

/-- Claim C3 (amended): change detection guards only the email-provider
sync of the order-created handler — when the resolved status equals the
stored one (or is unknown) that handler issues no email-provider call,
though it still issues the commerce-platform consent push whenever a
customer id is present and the outcome is known; the platform-consent
webhook handler appends its audit event and invokes the email-provider
synchronizer on every non-suppressed signal carrying an email, even when
the candidate status equals the stored one. -/
theorem change_detection_amended :
    (∀ inp : OrdersInput, ∀ o : ShopifyOracle, ∀ now : Int,
      inp.existing.bind Customer.lastState
        = some (toStateFromSubscribe (decideSubscribe inp.latestToggleState inp.session)) →
      (ordersCreateAction inp o now).klaviyoCalls = []) ∧
    (∀ inp : OrdersInput, ∀ o : ShopifyOracle, ∀ now : Int,
      decideSubscribe inp.latestToggleState inp.session = none →
      (ordersCreateAction inp o now).klaviyoCalls = []) ∧
    (∀ inp : OrdersInput, ∀ o : ShopifyOracle, ∀ now : Int,
      truthy inp.customerNumericId = true →
      (decideSubscribe inp.latestToggleState inp.session).isSome = true →
      1 ≤ (ordersCreateAction inp o now).emailMutCalls) ∧
    (∀ c : Customer, ∀ p : ConsentWebhookPayload, ∀ now : Int,
      fenceBlocks c (toState p.consent_state) now = false →
      truthy (normEmail p.email_address) = true →
      (consentWebhookAction (some c) p now).events.length = 1 ∧
      (consentWebhookAction (some c) p now).klaviyoCalls.length = 1) := by
  refine ⟨fun inp o now heq => ?_, fun inp o now hnone => ?_,
          fun inp o now hgid hsub => ?_, fun c p now hf he => ?_⟩
  · rw [ordersCreateAction_klaviyoCalls, heq]
    simp
  · rw [ordersCreateAction_klaviyoCalls, hnone]
    simp
  · have : (ordersCreateAction inp o now).emailMutCalls
        = (shopifyConsentPush (ordersRow0 inp now)
            (truthy inp.customerNumericId && (decideSubscribe inp.latestToggleState inp.session).isSome)
            (ordersEmail inp.payloadEmail inp.customerEmail).isSome
            (toStateFromSubscribe (decideSubscribe inp.latestToggleState inp.session)) o now).emailMutCalls := rfl
    rw [this, hgid, hsub]
    exact shopifyConsentPush_calls_pos _ _ _ _ _
  · simp [consentWebhookAction, hf, consentWebhookApply, he]

/-- Witness for the amended C3: an unchanged resolved status yields no
provider call in the order handler, an unknown outcome also yields none,
while the consent webhook still calls the provider on an unchanged
status. -/
theorem change_detection_amended_witness :
    (ordersCreateAction
        { session := some { mode := some "OPT_OUT" },
          payloadEmail := some "x@y.z",
          existing := some { lastState := some TriState.SUBSCRIBED } }
        { firstMut := GraphQLOutcome.ok, custUpdate := GraphQLOutcome.ok }
        500).klaviyoCalls = [] ∧
    (ordersCreateAction
        { payloadEmail := some "x@y.z",
          existing := some { lastState := some TriState.SUBSCRIBED } }
        { firstMut := GraphQLOutcome.ok, custUpdate := GraphQLOutcome.ok }
        500).klaviyoCalls = [] ∧
    (consentWebhookAction
        (some { lastState := some TriState.SUBSCRIBED })
        { customer_id := some "7", email_address := some "a@b.c",
          consent_state := some "subscribed", consent_updated_at := some 150 }
        200).klaviyoCalls.length = 1 :=
  ⟨change_detection_amended.1
      { session := some { mode := some "OPT_OUT" },
        payloadEmail := some "x@y.z",
        existing := some { lastState := some TriState.SUBSCRIBED } }
      { firstMut := GraphQLOutcome.ok, custUpdate := GraphQLOutcome.ok }
      500 (by decide),
   change_detection_amended.2.1
      { payloadEmail := some "x@y.z",
        existing := some { lastState := some TriState.SUBSCRIBED } }
      { firstMut := GraphQLOutcome.ok, custUpdate := GraphQLOutcome.ok }
      500 (by decide),
   (change_detection_amended.2.2.2
      { lastState := some TriState.SUBSCRIBED }
      { customer_id := some "7", email_address := some "a@b.c",
        consent_state := some "subscribed", consent_updated_at := some 150 }
      200 (by decide) (by decide)).2⟩

/-- On a "unique email" conflict with an email at hand, the push issues
exactly one corrective customer update, and retries the consent mutation
exactly once precisely when the corrective update succeeded. -/
theorem shopifyConsentPush_conflict (row : Option Customer) (st : TriState)
    (o : ShopifyOracle) (now : Int) (msgs : List String)
    (h1 : o.firstMut = GraphQLOutcome.userErrors msgs)
    (hu : msgs.any mentionsUniqueEmail = true) :
    (shopifyConsentPush row true true st o now).customerUpdateCalls = 1 ∧
    (shopifyConsentPush row true true st o now).emailMutCalls
      = (if o.custUpdate = GraphQLOutcome.ok then 2 else 1) := by
  unfold shopifyConsentPush
  rw [h1]
  cases o.custUpdate <;> simp [hu]

/-- On a consent-mutation failure that is not a "unique email" conflict,
the push issues no corrective update and no retry, and clears the armed
fence on the customer row. -/
theorem shopifyConsentPush_otherError (row : Option Customer) (ep : Bool)
    (st : TriState) (o : ShopifyOracle) (now : Int)
    (herr : (∃ msgs, o.firstMut = GraphQLOutcome.userErrors msgs ∧
              msgs.any mentionsUniqueEmail = false) ∨
            o.firstMut = GraphQLOutcome.exn) :
    (shopifyConsentPush row true ep st o now).emailMutCalls = 1 ∧
    (shopifyConsentPush row true ep st o now).customerUpdateCalls = 0 ∧
    (shopifyConsentPush row true ep st o now).customer.map
      Customer.suppressConsentWebhookUntil = row.map (fun _ => none) ∧
    (shopifyConsentPush row true ep st o now).customer.map
      Customer.suppressConsentState = row.map (fun _ => none) := by
  unfold shopifyConsentPush
  rcases herr with ⟨msgs, h1, hu⟩ | h1
  · rw [h1]
    cases row <;>
      simp [hu, setConsentWebhookSuppression, clearConsentWebhookSuppression]
  · rw [h1]
    cases row <;>
      simp [setConsentWebhookSuppression, clearConsentWebhookSuppression]

/-- The push issues at most two consent mutations in every case. -/
theorem shopifyConsentPush_calls_le_two (row : Option Customer) (dp ep : Bool)
    (st : TriState) (o : ShopifyOracle) (now : Int) :
    (shopifyConsentPush row dp ep st o now).emailMutCalls ≤ 2 := by
  unfold shopifyConsentPush
  cases dp with
  | false => simp
  | true =>
    cases o.firstMut with
    | ok => simp
    | exn => simp
    | userErrors msgs =>
      by_cases hc : (msgs.any mentionsUniqueEmail && ep) = true <;>
        cases o.custUpdate <;> simp [hc]

/-- Claim C7: email-conflict bounded retry — under a known outcome, a
platform customer id and a resolved email, the orders-create consent push
issues at most two consent mutations ever; on a "unique email" conflict it
performs exactly one corrective customer update and retries the consent
mutation exactly once (when the corrective update succeeds, and never more
than once); on any other error it performs no corrective update and no
retry, clears the suppression fence, and the handler still acknowledges
the webhook. -/
theorem email_conflict_bounded_retry (inp : OrdersInput) (o : ShopifyOracle) (now : Int)
    (hgid : truthy inp.customerNumericId = true)
    (hsub : (decideSubscribe inp.latestToggleState inp.session).isSome = true)
    (hemail : (ordersEmail inp.payloadEmail inp.customerEmail).isSome = true) :
    (ordersCreateAction inp o now).emailMutCalls ≤ 2 ∧
    (∀ msgs, o.firstMut = GraphQLOutcome.userErrors msgs →
      msgs.any mentionsUniqueEmail = true →
      (ordersCreateAction inp o now).customerUpdateCalls = 1 ∧
      (ordersCreateAction inp o now).emailMutCalls
        = (if o.custUpdate = GraphQLOutcome.ok then 2 else 1)) ∧
    (∀ msgs, o.firstMut = GraphQLOutcome.userErrors msgs →
      msgs.any mentionsUniqueEmail = false →
      (ordersCreateAction inp o now).emailMutCalls = 1 ∧
      (ordersCreateAction inp o now).customerUpdateCalls = 0 ∧
      (ordersCreateAction inp o now).customer.map Customer.suppressConsentWebhookUntil
        = (ordersRow0 inp now).map (fun _ => none) ∧
      (ordersCreateAction inp o now).customer.map Customer.suppressConsentState
        = (ordersRow0 inp now).map (fun _ => none) ∧
      (ordersCreateAction inp o now).ok = true) ∧
    (o.firstMut = GraphQLOutcome.exn →
      (ordersCreateAction inp o now).emailMutCalls = 1 ∧
      (ordersCreateAction inp o now).customerUpdateCalls = 0 ∧
      (ordersCreateAction inp o now).customer.map Customer.suppressConsentWebhookUntil
        = (ordersRow0 inp now).map (fun _ => none) ∧
      (ordersCreateAction inp o now).customer.map Customer.suppressConsentState
        = (ordersRow0 inp now).map (fun _ => none) ∧
      (ordersCreateAction inp o now).ok = true) := by
  have hcust : (ordersCreateAction inp o now).customer
      = (shopifyConsentPush (ordersRow0 inp now)
          (truthy inp.customerNumericId && (decideSubscribe inp.latestToggleState inp.session).isSome)
          (ordersEmail inp.payloadEmail inp.customerEmail).isSome
          (toStateFromSubscribe (decideSubscribe inp.latestToggleState inp.session)) o now).customer := rfl
  have hmut : (ordersCreateAction inp o now).emailMutCalls
      = (shopifyConsentPush (ordersRow0 inp now)
          (truthy inp.customerNumericId && (decideSubscribe inp.latestToggleState inp.session).isSome)
          (ordersEmail inp.payloadEmail inp.customerEmail).isSome
          (toStateFromSubscribe (decideSubscribe inp.latestToggleState inp.session)) o now).emailMutCalls := rfl
  have hupd : (ordersCreateAction inp o now).customerUpdateCalls
      = (shopifyConsentPush (ordersRow0 inp now)
          (truthy inp.customerNumericId && (decideSubscribe inp.latestToggleState inp.session).isSome)
          (ordersEmail inp.payloadEmail inp.customerEmail).isSome
          (toStateFromSubscribe (decideSubscribe inp.latestToggleState inp.session)) o now).customerUpdateCalls := rfl
  rw [hgid, hsub] at hcust hmut hupd
  rw [hemail] at hcust hmut hupd
  simp only [Bool.and_self] at hcust hmut hupd
  refine ⟨?_, fun msgs h1 hu => ?_, fun msgs h1 hu => ?_, fun h1 => ?_⟩
  · rw [hmut]
    exact shopifyConsentPush_calls_le_two _ _ _ _ _ _
  · have h := shopifyConsentPush_conflict (ordersRow0 inp now)
      (toStateFromSubscribe (decideSubscribe inp.latestToggleState inp.session)) o now msgs h1 hu
    exact ⟨hupd ▸ h.1, hmut ▸ h.2⟩
  · have h := shopifyConsentPush_otherError (ordersRow0 inp now) true
      (toStateFromSubscribe (decideSubscribe inp.latestToggleState inp.session)) o now
      (Or.inl ⟨msgs, h1, hu⟩)
    exact ⟨hmut ▸ h.1, hupd ▸ h.2.1, hcust ▸ h.2.2.1, hcust ▸ h.2.2.2, rfl⟩
  · have h := shopifyConsentPush_otherError (ordersRow0 inp now) true
      (toStateFromSubscribe (decideSubscribe inp.latestToggleState inp.session)) o now
      (Or.inr h1)
    exact ⟨hmut ▸ h.1, hupd ▸ h.2.1, hcust ▸ h.2.2.1, hcust ▸ h.2.2.2, rfl⟩

/-- Witness for C7 at a concrete conflicting and a concrete failing push. -/
theorem email_conflict_bounded_retry_witness :
    (ordersCreateAction
        { session := some { mode := some "OPT_OUT" },
          payloadEmail := some "x@y.z", customerNumericId := some "9" }
        { firstMut := GraphQLOutcome.userErrors ["Email is not unique email"],
          custUpdate := GraphQLOutcome.ok }
        500).customerUpdateCalls = 1 ∧
    (ordersCreateAction
        { session := some { mode := some "OPT_OUT" },
          payloadEmail := some "x@y.z", customerNumericId := some "9" }
        { firstMut := GraphQLOutcome.userErrors ["Email is not unique email"],
          custUpdate := GraphQLOutcome.ok }
        500).emailMutCalls = (if (GraphQLOutcome.ok = GraphQLOutcome.ok) then 2 else 1) ∧
    (ordersCreateAction
        { session := some { mode := some "OPT_OUT" },
          payloadEmail := some "x@y.z", customerNumericId := some "9" }
        { firstMut := GraphQLOutcome.exn, custUpdate := GraphQLOutcome.ok }
        500).emailMutCalls = 1 := by
  refine ⟨?_, ?_, ?_⟩
  · exact ((email_conflict_bounded_retry
      { session := some { mode := some "OPT_OUT" },
        payloadEmail := some "x@y.z", customerNumericId := some "9" }
      { firstMut := GraphQLOutcome.userErrors ["Email is not unique email"],
        custUpdate := GraphQLOutcome.ok }
      500 (by decide) (by decide) (by decide)).2.1
      ["Email is not unique email"] rfl (by decide)).1
  · exact ((email_conflict_bounded_retry
      { session := some { mode := some "OPT_OUT" },
        payloadEmail := some "x@y.z", customerNumericId := some "9" }
      { firstMut := GraphQLOutcome.userErrors ["Email is not unique email"],
        custUpdate := GraphQLOutcome.ok }
      500 (by decide) (by decide) (by decide)).2.1
      ["Email is not unique email"] rfl (by decide)).2
  · exact ((email_conflict_bounded_retry
      { session := some { mode := some "OPT_OUT" },
        payloadEmail := some "x@y.z", customerNumericId := some "9" }
      { firstMut := GraphQLOutcome.exn, custUpdate := GraphQLOutcome.ok }
      500 (by decide) (by decide) (by decide)).2.2.2 rfl).1
